import Mathlib

/-!
Verification of the NetEase music downloader (`src/YY.py`).

The program is sequential, blocking I/O: we embed it shallowly by making the
external world explicit.  The filesystem is an association list from paths to
byte lists; each network/user interaction that an attempt of the retry loop can
perform is an `AttemptEnv` record, and a whole run of `download_song` is driven
by a map from attempt index to environment.  Byte strings are `List Nat`.
-/

namespace YY

/-- The filesystem: an association list from full paths to file contents. -/
abbrev FS := List (String × List Nat)

/-- Look up the contents stored at a path. -/
def fsLookup : FS → String → Option (List Nat)
  | [], _ => none
  | (p, b) :: rest, q => if p = q then some b else fsLookup rest q

/-- Model of `Path.exists()`. -/
def fsExists (fs : FS) (p : String) : Bool :=
  (fsLookup fs p).isSome

/-- Model of `Path.unlink()`: remove every entry at the path. -/
def fsErase : FS → String → FS
  | [], _ => []
  | (p, b) :: rest, q => if p = q then fsErase rest q else (p, b) :: fsErase rest q

/-- Model of `open(p, 'wb')` followed by writing `b`: the path now holds
exactly `b`. -/
def fsWrite (fs : FS) (p : String) (b : List Nat) : FS :=
  (p, b) :: fsErase fs p

/-- Outcome of the streaming GET in `_download_with_progress`:
either the full body arrives as a list of chunks, or an exception interrupts
the chunk loop after `written` bytes reached the file, or an exception is
raised before the destination file is even opened (connection failure or a
non-2xx status rejected by `raise_for_status`). -/
inductive FetchOutcome where
  | success (chunks : List (List Nat))
  | failPartial (written : List Nat)
  | failBeforeOpen
deriving DecidableEq

/-- Model of `_download_with_progress(url, save_path)` from `src/YY.py` lines
62-102.  On success the destination holds the concatenation of the received
chunks (chunks that are empty are skipped by the `if chunk:` guard but
contribute nothing to the concatenation).  On any exception the handler
deletes the destination if it exists and returns `False`.  Progress printing
does not touch the state and is not modelled. -/
def download_with_progress (fs : FS) (save_path : String) (out : FetchOutcome) :
    Bool × FS :=
  match out with
  | .success chunks => (true, fsWrite fs save_path chunks.flatten)
  | .failPartial written =>
      let fs1 := fsWrite fs save_path written
      (false, if fsExists fs1 save_path then fsErase fs1 save_path else fs1)
  | .failBeforeOpen =>
      (false, if fsExists fs save_path then fsErase fs save_path else fs)

/-! Python string primitives, re-implemented over character lists by
structural recursion so that the kernel can evaluate them on concrete
inputs. -/

/-- Python `s.endswith(suffix)`. -/
def pyEndsWith (s suffix : String) : Bool :=
  List.isSuffixOf suffix.toList s.toList

/-- Python `s.startswith(pre)`. -/
def pyStartsWith (s pre : String) : Bool :=
  List.isPrefixOf pre.toList s.toList

/-- Python `s.lower()`. -/
def pyLower (s : String) : String :=
  String.mk (s.toList.map Char.toLower)

/-- Python `s.strip()`: drop whitespace from both ends. -/
def pyStrip (s : String) : String :=
  String.mk (((s.toList.dropWhile Char.isWhitespace).reverse.dropWhile
    Char.isWhitespace).reverse)

/-- Worker for `pySplit`: split `s` at every (leftmost, non-overlapping)
occurrence of the non-empty separator `sep`, accumulating the current piece in
reverse in `acc`.  The fuel starts at the length of `s`; every step consumes
at least one character, so the fuel never runs out on the initial call. -/
def splitOnListGo (sep : List Char) : Nat → List Char → List Char → List (List Char)
  | _, [], acc => [acc.reverse]
  | 0, s, acc => [acc.reverse ++ s]
  | fuel + 1, c :: rest, acc =>
    if List.isPrefixOf sep (c :: rest) then
      acc.reverse :: splitOnListGo sep fuel (List.drop sep.length (c :: rest)) []
    else
      splitOnListGo sep fuel rest (c :: acc)

/-- Python `s.split(sep)` for a non-empty separator. -/
def pySplit (s sep : String) : List String :=
  (splitOnListGo sep.toList s.toList.length s.toList []).map String.mk

/-- Python substring containment (`pat in s`) for the non-empty patterns the
program uses: the split yields more than one piece exactly when `pat` occurs. -/
def contains_substr (s pat : String) : Bool :=
  (pySplit s pat).length != 1

/-- The two characters (double and single quote) removed by the strip call in
`_get_filename_from_headers`. -/
def isQuoteChar (c : Char) : Bool :=
  c = Char.ofNat 34 || c = Char.ofNat 39

/-- Python strip over the quote-character set: drop double and single quotes
from both ends. -/
def strip_quote_chars (s : String) : String :=
  String.mk (((s.toList.dropWhile isQuoteChar).reverse.dropWhile isQuoteChar).reverse)

/-- Model of `_get_filename_from_headers` from `src/YY.py` lines 52-60,
applied to the value of the response's `Content-Disposition` header
(defaulting to the empty string when the header is missing, as `headers.get`
does).  Python takes the last piece of the split on the `filename=` marker
and strips surrounding quotes; the ISO-8859-1/UTF-8 re-decoding step is
modelled as the identity on the byte-transparent strings we consider. -/
def get_filename_from_headers (contentDisposition : String) (song_id : String) :
    String :=
  if contains_substr contentDisposition "filename=" then
    strip_quote_chars ((pySplit contentDisposition "filename=").getLastD "")
  else
    "netmusic_" ++ song_id ++ ".mp3"

/-- Filename resolution of `download_song` (`src/YY.py` lines 139-144).
Python tests `if filename:` — truthiness — so both `None` and the empty
string fall through to the header-derived name; a non-empty explicit override
gets `.mp3` appended when absent. -/
def resolve_filename (filename : Option String) (contentDisposition : String)
    (song_id : String) : String :=
  match filename with
  | some f =>
    if f = "" then get_filename_from_headers contentDisposition song_id
    else if pyEndsWith f ".mp3" then f else f ++ ".mp3"
  | none => get_filename_from_headers contentDisposition song_id

/-- Outcome of the header-only probe `session.head(url)`: either a response
with a status code and a `Content-Disposition` header value, or one of the
exceptions caught by the retry loop (`Timeout`, `RequestException`, or any
other exception). -/
inductive ProbeResult where
  | ok (status : Nat) (contentDisposition : String)
  | timeout
  | reqError
  | otherError
deriving DecidableEq

/-- A probe outcome the retry loop treats as transient: any response status
other than 200 and 404, or any caught exception (timeout, connection error,
anything else). -/
def ProbeResult.transient : ProbeResult → Bool
  | .ok status _ => status != 200 && status != 404
  | .timeout => true
  | .reqError => true
  | .otherError => true

/-- Everything one iteration of the retry loop can consume from the outside
world: the probe's outcome, the user's answer to the overwrite prompt (read
only when the prompt is shown), and the outcome of the streaming fetch (used
only when the fetch is attempted). -/
structure AttemptEnv where
  probe : ProbeResult
  answer : String
  fetch : FetchOutcome
deriving DecidableEq

/-- Observable state threaded through `download_song`: the filesystem plus
counters for the probe (HEAD) requests issued, streaming fetch (GET) attempts
made, and retry sleeps (`time.sleep(2)`) performed. -/
structure DLState where
  fs : FS
  probes : Nat
  fetches : Nat
  sleeps : Nat
deriving DecidableEq

/-- The body of one iteration of the retry loop of `download_song`
(`src/YY.py` lines 128-161), after the conditional sleep.  Returns
`some result` when the iteration returns from the function, `none` when it
falls through to the next attempt.  A 404 probe returns `None`; any other
non-200 status or caught exception consumes the attempt; on a 200 the
filename is resolved, an existing destination plus a non-`y` answer returns
the existing path untouched, and otherwise the fetch runs and its failure
consumes the attempt. -/
def download_song_attempt (save_dir song_id : String) (filename : Option String)
    (e : AttemptEnv) (s0 : DLState) : Option (Option String) × DLState :=
  match e.probe with
  | .timeout => (none, { s0 with probes := s0.probes + 1 })
  | .reqError => (none, { s0 with probes := s0.probes + 1 })
  | .otherError => (none, { s0 with probes := s0.probes + 1 })
  | .ok status cd =>
    let s1 := { s0 with probes := s0.probes + 1 }
    if status = 404 then (some none, s1)
    else if status ≠ 200 then (none, s1)
    else
      let save_filename := resolve_filename filename cd song_id
      let save_path := save_dir ++ "/" ++ save_filename
      if fsExists s1.fs save_path && pyLower e.answer != "y" then
        (some (some save_path), s1)
      else
        let r := download_with_progress s1.fs save_path e.fetch
        let s2 := { s1 with fs := r.2, fetches := s1.fetches + 1 }
        if r.1 then (some (some save_path), s2) else (none, s2)

/-- One full iteration of the retry loop (`src/YY.py` lines 122-168) with
attempt index `retryIdx`: the `time.sleep(2)` at the top of the loop body
runs only when `retryIdx > 0`, then the attempt proper runs. -/
def download_song_step (save_dir song_id : String) (filename : Option String)
    (e : AttemptEnv) (retryIdx : Nat) (s : DLState) :
    Option (Option String) × DLState :=
  download_song_attempt save_dir song_id filename e
    (if retryIdx > 0 then { s with sleeps := s.sleeps + 1 } else s)

/-- The retry loop: run up to `remaining` further iterations starting at
attempt index `r`. -/
def download_song_go (save_dir song_id : String) (filename : Option String)
    (env : Nat → AttemptEnv) : Nat → Nat → DLState → Option String × DLState
  | _, 0, s => (none, s)
  | r, n + 1, s =>
    match download_song_step save_dir song_id filename (env r) r s with
    | (some res, s') => (res, s')
    | (none, s') => download_song_go save_dir song_id filename env (r + 1) n s'

/-- Model of `download_song` from `src/YY.py` lines 104-171: run the retry
loop for `max_retries` attempts over the initial filesystem `fs`, the outside
world being described by `env`. -/
def download_song (save_dir : String) (max_retries : Nat) (song_id : String)
    (filename : Option String) (fs : FS) (env : Nat → AttemptEnv) :
    Option String × DLState :=
  download_song_go save_dir song_id filename env 0 max_retries
    { fs := fs, probes := 0, fetches := 0, sleeps := 0 }

/-- Line handling of `download_playlist` (`src/YY.py` lines 194-206): strip
the line; skip it when blank or starting with `#`; otherwise split on every
comma, the identifier being the stripped piece before the first comma and the
custom filename the stripped second piece when there are at least two
pieces. -/
def parse_playlist_line (line : String) : Option (String × Option String) :=
  let l := pyStrip line
  if l == "" || pyStartsWith l "#" then none
  else
    let parts := pySplit l ","
    some (pyStrip (parts.headD ""),
      match parts with
      | _ :: second :: _ => some (pyStrip second)
      | _ => none)

/-- A line that `download_playlist` attempts: non-blank and not `#`-prefixed
after stripping. -/
def kept_line (line : String) : Bool :=
  !(pyStrip line == "" || pyStartsWith (pyStrip line) "#")

/-- The per-item loop of `download_playlist` (`src/YY.py` lines 194-213):
walk the lines threading the filesystem, calling `download_song` on each kept
line (the `k`-th attempted item runs in environment `envs k`), collecting the
successful paths and counting the attempts.  The 1-second pacing sleep after
each item has no observable effect in the model. -/
def download_playlist_go (sd : String) (mr : Nat) (envs : Nat → Nat → AttemptEnv) :
    List String → Nat → FS → List String × FS × Nat
  | [], _, fs => ([], fs, 0)
  | line :: rest, k, fs =>
    match parse_playlist_line line with
    | none => download_playlist_go sd mr envs rest k fs
    | some (song_id, fname) =>
      let r := download_song sd mr song_id fname fs (envs k)
      let rest_result := download_playlist_go sd mr envs rest (k + 1) r.2.fs
      match r.1 with
      | some p => (p :: rest_result.1, rest_result.2.1, rest_result.2.2 + 1)
      | none => (rest_result.1, rest_result.2.1, rest_result.2.2 + 1)

/-- Model of `download_playlist` from `src/YY.py` lines 173-218: an absent
list file returns the empty list at once; otherwise the lines are processed
in order.  The result is the list of successfully downloaded paths, the final
filesystem, and the number of `download_song` calls made. -/
def download_playlist (sd : String) (mr : Nat) (file_exists : Bool)
    (lines : List String) (envs : Nat → Nat → AttemptEnv) (fs : FS) :
    List String × FS × Nat :=
  if file_exists then download_playlist_go sd mr envs lines 0 fs
  else ([], fs, 0)

/-- The per-item outcomes of a batch run: one entry per attempted line,
holding that item's `download_song` result. -/
def playlist_outcomes (sd : String) (mr : Nat) (envs : Nat → Nat → AttemptEnv) :
    List String → Nat → FS → List (Option String)
  | [], _, _ => []
  | line :: rest, k, fs =>
    match parse_playlist_line line with
    | none => playlist_outcomes sd mr envs rest k fs
    | some (song_id, fname) =>
      let r := download_song sd mr song_id fname fs (envs k)
      r.1 :: playlist_outcomes sd mr envs rest (k + 1) r.2.fs

/-- Join strings with commas (inverse of a comma split). -/
def joinWithComma : List String → String
  | [] => ""
  | [x] => x
  | x :: rest => x ++ "," ++ joinWithComma rest

/-- Modelled from the spec sentence for comparison with `parse_playlist_line`:
"each remaining line is split on the FIRST comma into (identifier, optional
custom filename)", the filename being the entire stripped remainder of the
line after that first comma. -/
def parse_playlist_line_spec (line : String) : Option (String × Option String) :=
  let l := pyStrip line
  if l == "" || pyStartsWith l "#" then none
  else
    match pySplit l "," with
    | [] => some (pyStrip l, none)
    | [x] => some (pyStrip x, none)
    | x :: rest => some (pyStrip x, some (pyStrip (joinWithComma rest)))

/-- The `--list` operation of `main` (`src/YY.py` lines 321-328): enumerate
the files of the save directory matching the glob `*.mp3`. -/
def glob_mp3 (fs : FS) (dir : String) : List String :=
  (fs.filter (fun e => pyStartsWith e.1 (dir ++ "/") && pyEndsWith e.1 ".mp3")).map
    (fun e => e.1)

theorem fsLookup_fsErase_self (fs : FS) (p : String) :
    fsLookup (fsErase fs p) p = none := by
  induction fs with
  | nil => rfl
  | cons e rest ih =>
    obtain ⟨q, b⟩ := e
    by_cases h : q = p
    · simpa [fsErase, h] using ih
    · simpa [fsErase, fsLookup, h] using ih

theorem fsLookup_fsWrite_self (fs : FS) (p : String) (b : List Nat) :
    fsLookup (fsWrite fs p b) p = some b := by
  simp [fsWrite, fsLookup]

/-- Shared failure-cleanup lemma: whenever `download_with_progress` reports
failure, the destination path is absent from the resulting filesystem. -/
theorem dwp_fail_absent (fs : FS) (p : String) (out : FetchOutcome)
    (h : (download_with_progress fs p out).1 = false) :
    fsLookup (download_with_progress fs p out).2 p = none := by
  cases out with
  | success chunks => simp [download_with_progress] at h
  | failPartial written =>
    simp only [download_with_progress, fsExists, fsLookup_fsWrite_self,
      Option.isSome_some, if_true]
    exact fsLookup_fsErase_self _ p
  | failBeforeOpen =>
    simp only [download_with_progress]
    cases hlk : fsLookup fs p with
    | none => simp [fsExists, hlk]
    | some b => simp [fsExists, hlk, fsLookup_fsErase_self]

/-- A successful fetch leaves the destination present. -/
theorem dwp_true_exists (fs : FS) (q : String) (out : FetchOutcome)
    (h : (download_with_progress fs q out).1 = true) :
    fsExists (download_with_progress fs q out).2 q = true := by
  cases out with
  | success chunks =>
    simp [download_with_progress, fsExists, fsLookup_fsWrite_self]
  | failPartial w => simp [download_with_progress] at h
  | failBeforeOpen => simp [download_with_progress] at h

/-- C1: for every transfer that fails partway through (any exception during
the streaming body request or the chunk-writing loop of
`_download_with_progress`), the destination path is absent on disk when the
function returns failure — no truncated or partial file survives there. -/
theorem C1_failed_transfer_leaves_no_partial_file
    (fs : FS) (p : String) (out : FetchOutcome)
    (h : (download_with_progress fs p out).1 = false) :
    fsLookup (download_with_progress fs p out).2 p = none :=
  dwp_fail_absent fs p out h

/-- C1 witness: a transfer into an initially empty directory that dies after
3 bytes returns failure and leaves the destination absent. -/
theorem C1_witness :
    (download_with_progress [] "downloads/a.mp3" (.failPartial [1, 2, 3])).1 = false ∧
    fsLookup (download_with_progress [] "downloads/a.mp3"
      (.failPartial [1, 2, 3])).2 "downloads/a.mp3" = none :=
  ⟨by decide,
   C1_failed_transfer_leaves_no_partial_file [] "downloads/a.mp3"
     (.failPartial [1, 2, 3]) (by decide)⟩

/-- A transient attempt falls through: the probe counter advances, the sleep
counter advances exactly when this is not the first attempt, and nothing else
changes. -/
theorem download_song_step_transient (sd id : String) (fopt : Option String)
    (e : AttemptEnv) (r : Nat) (s : DLState)
    (h : e.probe.transient = true) :
    download_song_step sd id fopt e r s =
      (none, { s with
                 probes := s.probes + 1,
                 sleeps := if r > 0 then s.sleeps + 1 else s.sleeps }) := by
  cases hp : e.probe with
  | timeout =>
    by_cases hr : r > 0 <;>
      simp [download_song_step, download_song_attempt, hp, hr]
  | reqError =>
    by_cases hr : r > 0 <;>
      simp [download_song_step, download_song_attempt, hp, hr]
  | otherError =>
    by_cases hr : r > 0 <;>
      simp [download_song_step, download_song_attempt, hp, hr]
  | ok status cd =>
    rw [hp] at h
    simp only [ProbeResult.transient, Bool.and_eq_true, bne_iff_ne] at h
    by_cases hr : r > 0 <;>
      simp [download_song_step, download_song_attempt, hp, hr, h.1, h.2]

/-- Running the loop over uniformly transient probes never returns a path,
performs one probe per remaining attempt, and touches neither the filesystem
nor the fetch counter. -/
theorem download_song_go_transient (sd id : String) (fopt : Option String)
    (env : Nat → AttemptEnv)
    (htrans : ∀ i, ((env i).probe).transient = true) :
    ∀ (n r : Nat) (s : DLState),
      (download_song_go sd id fopt env r n s).1 = none ∧
      (download_song_go sd id fopt env r n s).2.probes = s.probes + n ∧
      (download_song_go sd id fopt env r n s).2.fetches = s.fetches ∧
      (download_song_go sd id fopt env r n s).2.fs = s.fs := by
  intro n
  induction n with
  | zero => intro r s; simp [download_song_go]
  | succ n ih =>
    intro r s
    rw [download_song_go,
      download_song_step_transient sd id fopt (env r) r s (htrans r)]
    obtain ⟨h1, h2, h3, h4⟩ := ih (r + 1)
      { s with
          probes := s.probes + 1,
          sleeps := if r > 0 then s.sleeps + 1 else s.sleeps }
    dsimp only at h2 h3 h4
    refine ⟨h1, ?_, h3, h4⟩
    rw [h2]; omega

/-- C3: for a track whose probe always yields a transient outcome (non-200,
non-404 status, or timeout/connection error, or any other caught exception),
`download_song` performs exactly `max_retries` probe attempts — no more, no
fewer — issues no body fetch, and returns `None`. -/
theorem C3_transient_probes_exhaust_exactly_max_retries
    (sd id : String) (fopt : Option String) (fs : FS) (mr : Nat)
    (env : Nat → AttemptEnv)
    (htrans : ∀ i, ((env i).probe).transient = true) :
    (download_song sd mr id fopt fs env).1 = none ∧
    (download_song sd mr id fopt fs env).2.probes = mr ∧
    (download_song sd mr id fopt fs env).2.fetches = 0 := by
  obtain ⟨h1, h2, h3, _⟩ :=
    download_song_go_transient sd id fopt env htrans mr 0
      { fs := fs, probes := 0, fetches := 0, sleeps := 0 }
  exact ⟨h1, by simpa [download_song] using h2, by simpa [download_song] using h3⟩

/-- C3 witness: three attempts against a server that always answers 503 make
exactly three probes, zero fetches, and return `None`. -/
theorem C3_witness :
    (download_song "downloads" 3 "42" none []
      (fun _ => ⟨.ok 503 "", "", .failBeforeOpen⟩)).1 = none ∧
    (download_song "downloads" 3 "42" none []
      (fun _ => ⟨.ok 503 "", "", .failBeforeOpen⟩)).2.probes = 3 ∧
    (download_song "downloads" 3 "42" none []
      (fun _ => ⟨.ok 503 "", "", .failBeforeOpen⟩)).2.fetches = 0 :=
  C3_transient_probes_exhaust_exactly_max_retries "downloads" "42" none [] 3
    (fun _ => ⟨.ok 503 "", "", .failBeforeOpen⟩) (fun _ => rfl)

/-- C2: a 404 from the very first header-only probe makes `download_song`
return `None` immediately: one probe, no body fetch, no further attempt, no
retry sleep, filesystem untouched. -/
theorem C2_probe_404_terminal (sd id cd : String) (mr : Nat) (hmr : 1 ≤ mr)
    (fopt : Option String) (fs : FS) (env : Nat → AttemptEnv)
    (hp : (env 0).probe = .ok 404 cd) :
    download_song sd mr id fopt fs env =
      (none, { fs := fs, probes := 1, fetches := 0, sleeps := 0 }) := by
  obtain ⟨n, rfl⟩ : ∃ n, mr = n + 1 := ⟨mr - 1, by omega⟩
  simp [download_song, download_song_go, download_song_step,
    download_song_attempt, hp]

/-- C2 witness: a 404 probe on the first of three allowed attempts returns
`None` with exactly one probe and no fetch or sleep. -/
theorem C2_witness :
    1 ≤ 3 ∧
    download_song "downloads" 3 "999999999" none []
      (fun _ => ⟨.ok 404 "", "", .failBeforeOpen⟩) =
      (none, { fs := [], probes := 1, fetches := 0, sleeps := 0 }) :=
  ⟨by decide,
   C2_probe_404_terminal "downloads" "999999999" "" 3 (by decide) none []
     (fun _ => ⟨.ok 404 "", "", .failBeforeOpen⟩) rfl⟩

theorem parse_playlist_line_none_iff (line : String) :
    parse_playlist_line line = none ↔ kept_line line = false := by
  unfold parse_playlist_line kept_line
  cases h : (pyStrip line == "" || pyStartsWith (pyStrip line) "#") <;> simp [h]

/-- The attempt counter of the batch loop equals the number of kept lines. -/
theorem download_playlist_go_attempts (sd : String) (mr : Nat)
    (envs : Nat → Nat → AttemptEnv) :
    ∀ (lines : List String) (k : Nat) (fs : FS),
      (download_playlist_go sd mr envs lines k fs).2.2 =
        (lines.filter kept_line).length := by
  intro lines
  induction lines with
  | nil => intro k fs; rfl
  | cons line rest ih =>
    intro k fs
    rw [download_playlist_go]
    cases hparse : parse_playlist_line line with
    | none =>
      have hk : kept_line line = false := (parse_playlist_line_none_iff line).mp hparse
      simp [hk, ih k fs]
    | some pr =>
      obtain ⟨song_id, fname⟩ := pr
      have hk : kept_line line = true := by
        cases hkl : kept_line line with
        | false => rw [(parse_playlist_line_none_iff line).mpr hkl] at hparse; cases hparse
        | true => rfl
      cases hdl : (download_song sd mr song_id fname fs (envs k)).1 <;>
        simp [hdl, hk, ih]

/-- The successful-path list of the batch loop is exactly the item outcomes
with the failures dropped, and every kept line contributes one outcome. -/
theorem download_playlist_go_files (sd : String) (mr : Nat)
    (envs : Nat → Nat → AttemptEnv) :
    ∀ (lines : List String) (k : Nat) (fs : FS),
      (download_playlist_go sd mr envs lines k fs).1 =
        (playlist_outcomes sd mr envs lines k fs).reduceOption ∧
      (playlist_outcomes sd mr envs lines k fs).length =
        (lines.filter kept_line).length := by
  intro lines
  induction lines with
  | nil => intro k fs; simp [download_playlist_go, playlist_outcomes, List.reduceOption]
  | cons line rest ih =>
    intro k fs
    rw [download_playlist_go, playlist_outcomes]
    cases hparse : parse_playlist_line line with
    | none =>
      have hk : kept_line line = false := (parse_playlist_line_none_iff line).mp hparse
      simp [hk, ih k fs]
    | some pr =>
      obtain ⟨song_id, fname⟩ := pr
      have hk : kept_line line = true := by
        cases hkl : kept_line line with
        | false => rw [(parse_playlist_line_none_iff line).mpr hkl] at hparse; cases hparse
        | true => rfl
      obtain ⟨ih1, ih2⟩ :=
        ih (k + 1) (download_song sd mr song_id fname fs (envs k)).2.fs
      cases hdl : (download_song sd mr song_id fname fs (envs k)).1 <;>
        simp [hdl, hk, ih1, ih2, List.reduceOption]

/-- C4: for every list-file input, exactly the blank and `#`-prefixed lines
(after stripping) are excluded, and the number of `download_song` attempts
equals the number of remaining lines. -/
theorem C4_attempt_count_is_kept_line_count (sd : String) (mr : Nat)
    (lines : List String) (envs : Nat → Nat → AttemptEnv) (fs : FS) :
    (download_playlist sd mr true lines envs fs).2.2 =
      (lines.filter kept_line).length := by
  simpa [download_playlist] using download_playlist_go_attempts sd mr envs lines 0 fs

/-- C5 counterexample: on the line `222,custom,extra` the code keeps only the
second comma-separated field (`custom`) as the filename, while the claim's
"entire remainder after the first comma" would be `custom,extra`. -/
theorem C5_counterexample :
    parse_playlist_line "222,custom,extra" = some ("222", some "custom") ∧
    parse_playlist_line_spec "222,custom,extra" =
      some ("222", some "custom,extra") ∧
    (some ("222", some "custom") : Option (String × Option String)) ≠
      some ("222", some "custom,extra") := by decide

/-- C5 amended: for every kept line, the identifier is the stripped text
before the first comma, and the custom filename, when a comma is present, is
the stripped text between the first and second commas (the second
comma-separated field); any text after a second comma is discarded. -/
theorem C5_filename_is_second_comma_field (line : String)
    (h : kept_line line = true) :
    parse_playlist_line line =
      some (pyStrip ((pySplit (pyStrip line) ",").headD ""),
            (((pySplit (pyStrip line) ",").drop 1).head?).map pyStrip) := by
  unfold parse_playlist_line
  unfold kept_line at h
  cases hc : (pyStrip line == "" || pyStartsWith (pyStrip line) "#") with
  | true => rw [hc] at h; cases h
  | false =>
    simp only [hc, if_false, Bool.false_eq_true]
    cases hs : pySplit (pyStrip line) "," with
    | nil => simp
    | cons x rest => cases rest <;> simp

/-- C5 amended witness: the line `222,custom,extra` is kept and parses to the
identifier `222` with filename `custom`, the second comma-separated field. -/
theorem C5_witness :
    kept_line "222,custom,extra" = true ∧
    parse_playlist_line "222,custom,extra" =
      some (pyStrip ((pySplit (pyStrip "222,custom,extra") ",").headD ""),
            (((pySplit (pyStrip "222,custom,extra") ",").drop 1).head?).map
              pyStrip) :=
  ⟨by decide, C5_filename_is_second_comma_field "222,custom,extra" (by decide)⟩

/-- C6 counterexample: a list file that exists and contains the single entry
`111`, every probe answering 404, yields one attempt and an empty result
list — so an empty result does not imply the file was missing. -/
theorem C6_counterexample :
    (download_playlist "downloads" 1 true ["111"]
      (fun _ _ => ⟨.ok 404 "", "", .failBeforeOpen⟩) []).1 = [] ∧
    (download_playlist "downloads" 1 true ["111"]
      (fun _ _ => ⟨.ok 404 "", "", .failBeforeOpen⟩) []).2.2 = 1 := by decide

/-- C6 amended: a missing list file returns the empty list with zero
attempts; when the file exists, per-item failures do not abort the batch —
every kept line is attempted (one outcome per kept line) and the returned
list is exactly the successful outcomes in order. -/
theorem C6_batch_never_aborts (sd : String) (mr : Nat) (lines : List String)
    (envs : Nat → Nat → AttemptEnv) (fs : FS) :
    download_playlist sd mr false lines envs fs = ([], fs, 0) ∧
    (download_playlist sd mr true lines envs fs).1 =
      (playlist_outcomes sd mr envs lines 0 fs).reduceOption ∧
    (playlist_outcomes sd mr envs lines 0 fs).length =
      (lines.filter kept_line).length := by
  obtain ⟨h1, h2⟩ := download_playlist_go_files sd mr envs lines 0 fs
  exact ⟨rfl, by simpa [download_playlist] using h1, h2⟩

/-- With a non-empty explicit filename override, any path an attempt returns
is the save directory joined with the override-derived name (the probe's
`Content-Disposition` header plays no role). -/
theorem download_song_attempt_some_path (sd id f : String) (hf : f ≠ "")
    (e : AttemptEnv) (s : DLState) (p : String) (s' : DLState)
    (h : download_song_attempt sd id (some f) e s = (some (some p), s')) :
    p = sd ++ "/" ++ (if pyEndsWith f ".mp3" then f else f ++ ".mp3") := by
  unfold download_song_attempt at h
  cases hp : e.probe <;> rw [hp] at h
  case timeout => simp at h
  case reqError => simp at h
  case otherError => simp at h
  case ok status cd =>
    simp only [resolve_filename] at h
    rw [if_neg hf] at h
    by_cases hmp3 : pyEndsWith f ".mp3" = true
    all_goals simp only [hmp3, if_true, Bool.false_eq_true, if_false] at h ⊢
    all_goals
      split at h
      · simp [Prod.ext_iff] at h
      · split at h
        · simp [Prod.ext_iff] at h
        · split at h
          · simp only [Prod.mk.injEq, Option.some.injEq] at h
            exact h.1.symm
          · split at h
            · simp only [Prod.mk.injEq, Option.some.injEq] at h
              exact h.1.symm
            · simp [Prod.ext_iff] at h

/-- Any path an attempt returns exists in the filesystem the attempt leaves
behind: the no-overwrite branch returns a path it just checked, and the
success branch just wrote it. -/
theorem download_song_attempt_some_exists (sd id : String)
    (fopt : Option String) (e : AttemptEnv) (s : DLState) (p : String)
    (s' : DLState)
    (h : download_song_attempt sd id fopt e s = (some (some p), s')) :
    fsExists s'.fs p = true := by
  unfold download_song_attempt at h
  cases hp : e.probe <;> rw [hp] at h <;> simp only [] at h
  case timeout => simp at h
  case reqError => simp at h
  case otherError => simp at h
  case ok status cd =>
    split at h
    · simp [Prod.ext_iff] at h
    · split at h
      · simp [Prod.ext_iff] at h
      · split at h
        next hcond =>
          simp only [Prod.mk.injEq, Option.some.injEq] at h
          obtain ⟨rfl, rfl⟩ := h
          exact ((Bool.and_eq_true _ _).mp hcond).1
        next hcond =>
          split at h
          next hfetch =>
            simp only [Prod.mk.injEq, Option.some.injEq] at h
            obtain ⟨rfl, rfl⟩ := h
            exact dwp_true_exists _ _ _ hfetch
          next => simp [Prod.ext_iff] at h

/-- Loop version of `download_song_attempt_some_path`. -/
theorem download_song_go_some_path (sd id f : String) (hf : f ≠ "")
    (env : Nat → AttemptEnv) :
    ∀ (n r : Nat) (s : DLState) (p : String),
      (download_song_go sd id (some f) env r n s).1 = some p →
      p = sd ++ "/" ++ (if pyEndsWith f ".mp3" then f else f ++ ".mp3") := by
  intro n
  induction n with
  | zero => intro r s p h; simp [download_song_go] at h
  | succ n ih =>
    intro r s p h
    rw [download_song_go] at h
    cases hstep : download_song_step sd id (some f) (env r) r s with
    | mk res s' =>
      rw [hstep] at h
      cases res with
      | some res0 =>
        simp only [] at h
        subst h
        have hstep' : download_song_attempt sd id (some f) (env r)
            (if r > 0 then { s with sleeps := s.sleeps + 1 } else s) =
            (some (some p), s') := hstep
        exact download_song_attempt_some_path sd id f hf (env r) _ p s' hstep'
      | none => exact ih (r + 1) s' p h

/-- Loop version of `download_song_attempt_some_exists`. -/
theorem download_song_go_some_exists (sd id : String) (fopt : Option String)
    (env : Nat → AttemptEnv) :
    ∀ (n r : Nat) (s : DLState) (p : String),
      (download_song_go sd id fopt env r n s).1 = some p →
      fsExists (download_song_go sd id fopt env r n s).2.fs p = true := by
  intro n
  induction n with
  | zero => intro r s p h; simp [download_song_go] at h
  | succ n ih =>
    intro r s p h
    rw [download_song_go] at h ⊢
    cases hstep : download_song_step sd id fopt (env r) r s with
    | mk res s' =>
      rw [hstep] at h
      cases res with
      | some res0 =>
        simp only [] at h ⊢
        subst h
        have hstep' : download_song_attempt sd id fopt (env r)
            (if r > 0 then { s with sleeps := s.sleeps + 1 } else s) =
            (some (some p), s') := hstep
        exact download_song_attempt_some_exists sd id fopt (env r) _ p s' hstep'
      | none => exact ih (r + 1) s' p h

/-- C7: downloading the same identifier and non-empty explicit filename twice
is idempotent when the overwrite confirmation is declined on the second call:
given that the first call returned a path, the second call returns that same
path with the filesystem (hence the file's bytes) unchanged, no fetch, and no
sleep.  (The non-emptiness matters: Python treats an empty override as falsy
and resolves from the headers instead.) -/
theorem C7_declined_overwrite_is_idempotent
    (sd id f cd : String) (hfne : f ≠ "") (mr mr2 : Nat) (fs : FS)
    (env env2 : Nat → AttemptEnv) (p : String) (s1 : DLState)
    (h1 : download_song sd mr id (some f) fs env = (some p, s1))
    (hmr2 : 1 ≤ mr2)
    (hp : (env2 0).probe = .ok 200 cd)
    (ha : pyLower (env2 0).answer ≠ "y") :
    download_song sd mr2 id (some f) s1.fs env2 =
      (some p, { fs := s1.fs, probes := 1, fetches := 0, sleeps := 0 }) := by
  have hres : (download_song_go sd id (some f) env 0 mr
      { fs := fs, probes := 0, fetches := 0, sleeps := 0 }).1 = some p := by
    rw [show download_song_go sd id (some f) env 0 mr
        { fs := fs, probes := 0, fetches := 0, sleeps := 0 } = (some p, s1) from h1]
  have hpath : p = sd ++ "/" ++ (if pyEndsWith f ".mp3" then f else f ++ ".mp3") :=
    download_song_go_some_path sd id f hfne env mr 0 _ p hres
  have hex0 : fsExists (download_song_go sd id (some f) env 0 mr
      { fs := fs, probes := 0, fetches := 0, sleeps := 0 }).2.fs p = true :=
    download_song_go_some_exists sd id (some f) env mr 0 _ p hres
  have hex : fsExists s1.fs p = true := by
    rw [show download_song_go sd id (some f) env 0 mr
        { fs := fs, probes := 0, fetches := 0, sleeps := 0 } = (some p, s1) from h1]
      at hex0
    exact hex0
  subst hpath
  obtain ⟨n, rfl⟩ : ∃ n, mr2 = n + 1 := ⟨mr2 - 1, by omega⟩
  have ha' : (pyLower (env2 0).answer != "y") = true := by
    simpa [bne_iff_ne] using ha
  simp [download_song, download_song_go, download_song_step,
    download_song_attempt, hp, hex, ha', resolve_filename, hfne]

/-- C7 witness: a first run that downloads `tune.mp3` into an empty
directory, then a second run answering `n` to the overwrite prompt, returns
the same path with the file untouched. -/
theorem C7_witness :
    download_song "downloads" 3 "42" (some "tune") []
      (fun _ => ⟨.ok 200 "", "", .success [[1], [2, 3]]⟩) =
      (some "downloads/tune.mp3",
       { fs := [("downloads/tune.mp3", [1, 2, 3])],
         probes := 1, fetches := 1, sleeps := 0 }) ∧
    ("tune" : String) ≠ "" ∧
    1 ≤ 3 ∧
    pyLower "n" ≠ "y" ∧
    download_song "downloads" 3 "42" (some "tune")
      [("downloads/tune.mp3", [1, 2, 3])]
      (fun _ => ⟨.ok 200 "", "n", .success [[9]]⟩) =
      (some "downloads/tune.mp3",
       { fs := [("downloads/tune.mp3", [1, 2, 3])],
         probes := 1, fetches := 0, sleeps := 0 }) :=
  ⟨by decide, by decide, by decide, by decide,
   C7_declined_overwrite_is_idempotent "downloads" "42" "tune" "" (by decide)
     3 3 []
     (fun _ => ⟨.ok 200 "", "", .success [[1], [2, 3]]⟩)
     (fun _ => ⟨.ok 200 "", "n", .success [[9]]⟩)
     "downloads/tune.mp3"
     { fs := [("downloads/tune.mp3", [1, 2, 3])],
       probes := 1, fetches := 1, sleeps := 0 }
     (by decide) (by decide) rfl (by decide)⟩

/-- C8 counterexample: an explicit but empty filename override is falsy in
Python, so the program resolves the name from the header (saving
`downloads/a.mp3`) instead of applying the override rule to the empty string
(which would give `downloads/.mp3`): override precedence does not extend to
the empty override. -/
theorem C8_counterexample :
    (download_song "downloads" 1 "42" (some "") []
      (fun _ => ⟨.ok 200 "attachment; filename=a.mp3", "",
        .success [[1]]⟩)).1 = some "downloads/a.mp3" ∧
    ("downloads/a.mp3" : String) ≠
      "downloads" ++ "/" ++
        (if pyEndsWith "" ".mp3" then "" else "" ++ ".mp3") := by decide

/-- C8 amended: on a 200 probe whose fetch succeeds into a fresh directory,
with an ASCII `Content-Disposition` value (where the ISO-8859-1/UTF-8
re-decode is the identity and raises nothing), the path `download_song`
returns follows the resolution precedence: a present AND non-empty override
with `.mp3` appended when absent; otherwise — no override, or an empty one,
both falsy in Python — the name cut from the header after the `filename=`
marker (quotes stripped) when that marker is present; otherwise the
synthesized `netmusic_<id>.mp3`. -/
theorem C8_filename_resolution_precedence (sd id cd : String) (mr : Nat)
    (hmr : 1 ≤ mr) (fopt : Option String) (env : Nat → AttemptEnv)
    (chunks : List (List Nat))
    (hascii : ∀ c ∈ cd.toList, c.toNat < 128)
    (hp : (env 0).probe = .ok 200 cd)
    (hf : (env 0).fetch = .success chunks) :
    (download_song sd mr id fopt [] env).1 =
      some (sd ++ "/" ++
        (if fopt.getD "" ≠ "" then
           (if pyEndsWith (fopt.getD "") ".mp3" then fopt.getD ""
            else fopt.getD "" ++ ".mp3")
         else
           if contains_substr cd "filename=" then
             strip_quote_chars ((pySplit cd "filename=").getLastD "")
           else "netmusic_" ++ id ++ ".mp3")) := by
  obtain ⟨n, rfl⟩ : ∃ n, mr = n + 1 := ⟨mr - 1, by omega⟩
  simp only [download_song, download_song_go, download_song_step,
    download_song_attempt, hp, hf]
  cases fopt with
  | some f =>
    by_cases hfe : f = ""
    · subst hfe
      simp [resolve_filename, get_filename_from_headers,
        download_with_progress, fsExists, fsLookup]
    · simp [resolve_filename, hfe, download_with_progress, fsExists, fsLookup]
  | none =>
    simp [resolve_filename, get_filename_from_headers, download_with_progress,
      fsExists, fsLookup]

/-- C8 witness: with no override and a quoted ASCII `Content-Disposition`
filename, a successful download lands at `downloads/song.mp3`. -/
theorem C8_witness :
    (1 : Nat) ≤ 1 ∧
    (∀ c ∈ ("attachment; filename=\"song.mp3\"" : String).toList,
      c.toNat < 128) ∧
    (download_song "downloads" 1 "5257138" none []
      (fun _ => ⟨.ok 200 "attachment; filename=\"song.mp3\"", "",
        .success [[4], [5]]⟩)).1 =
      some ("downloads" ++ "/" ++
        (if (none : Option String).getD "" ≠ "" then
           (if pyEndsWith ((none : Option String).getD "") ".mp3" then
              (none : Option String).getD ""
            else (none : Option String).getD "" ++ ".mp3")
         else
           if contains_substr "attachment; filename=\"song.mp3\"" "filename=" then
             strip_quote_chars
               ((pySplit "attachment; filename=\"song.mp3\"" "filename=").getLastD "")
           else "netmusic_" ++ "5257138" ++ ".mp3")) :=
  ⟨by decide, by decide,
   C8_filename_resolution_precedence "downloads" "5257138"
     "attachment; filename=\"song.mp3\"" 1 (by decide) none
     (fun _ => ⟨.ok 200 "attachment; filename=\"song.mp3\"", "",
       .success [[4], [5]]⟩) [[4], [5]] (by decide) rfl rfl⟩

/-- C9: the `.mp3` suffix is enforced only on explicit overrides.  A header
whose `filename=` value is `song.wav` is used verbatim: the download succeeds
and returns `downloads/song.wav`, which does not end in `.mp3` and is
therefore omitted by the `--list` operation's `*.mp3` glob even though the
file is on disk. -/
theorem C9_header_derived_name_escapes_mp3_listing :
    download_song "downloads" 3 "42" none []
      (fun _ => ⟨.ok 200 "attachment; filename=song.wav", "", .success [[7]]⟩) =
      (some "downloads/song.wav",
       { fs := [("downloads/song.wav", [7])],
         probes := 1, fetches := 1, sleeps := 0 }) ∧
    pyEndsWith "downloads/song.wav" ".mp3" = false ∧
    fsLookup [("downloads/song.wav", [7])] "downloads/song.wav" = some [7] ∧
    glob_mp3 [("downloads/song.wav", [7])] "downloads" = [] := by decide

end YY
